import Mathlib

/-!
Verification of the SQL-compilation core of the `propane_core` crate
(`src/propane_core/src/db/helper.rs`): the recursive expression renderer
`sql_for_expr`, the default resolver `column_default`, and the literal
renderer `sql_literal_value`.

The embedding is a shallow one: the Rust functions' mutation of the bound
parameter vector (`&mut Vec<SqlVal>`) and of the text sink (`&mut W : Write`)
is modelled by explicit state passing of a `List SqlVal` and a `String`,
each write appending on the right, and every `push` appending on the right.
Machine integers (`i64`) are modelled as `Int`; byte vectors as `List Nat`.
-/

/-- The single-quote character, `'`, used by the literal renderer. -/
def squote : String := String.singleton (Char.ofNat 39)

/-- Payload of `SqlVal::Real(f64)`. Floating point does not translate to the
shallow embedding, so an `f64` value is represented by its Rust `Display`
rendering; `F64.zero` stands for `0.0_f64`, which renders as `"0"`. -/
structure F64 where
  repr : String
  deriving DecidableEq, Repr

/-- The `f64` value `0.0`, as produced by `column_default` for `Real` columns. -/
def F64.zero : F64 := ⟨"0"⟩

/-- Payload of `SqlVal::Timestamp`: chrono's `NaiveDateTime`, reduced to the
two fields `NaiveDateTime::from_timestamp(secs, nsecs)` is built from. -/
structure NaiveDateTime where
  secs : Int
  nsecs : Nat
  deriving DecidableEq, Repr

/-- chrono's `NaiveDateTime::from_timestamp`. -/
def NaiveDateTime.from_timestamp (secs : Int) (nsecs : Nat) : NaiveDateTime :=
  ⟨secs, nsecs⟩

/-- The Unix epoch, `NaiveDateTime::from_timestamp(0, 0)`. -/
def NaiveDateTime.epoch : NaiveDateTime := NaiveDateTime.from_timestamp 0 0

/-- Modelled from the spec: chrono's `%+` (ISO-8601) formatter is external to
the repository; it is modelled as an abstract injective rendering of the
timestamp's two fields. No claim depends on its exact text. -/
def NaiveDateTime.format_plus (t : NaiveDateTime) : String :=
  "datetime:" ++ toString t.secs ++ ":" ++ toString t.nsecs

/-- The tagged value type `SqlVal`. Its definition is outside `src/`, but the
`match` statements over it in `helper.rs` (`sql_literal_value`,
`column_default`) are exhaustive without a `BigInt` arm and without wildcard,
so the type has exactly these variants: `Null`, `Bool`, `Int(i64)`,
`Real(f64)`, `Text(String)`, `Blob(Vec<u8>)` and (under the `datetime`
feature, which we take as enabled) `Timestamp(NaiveDateTime)`. -/
inductive SqlVal where
  | null
  | bool (b : Bool)
  | int (i : Int)
  | real (r : F64)
  | text (s : String)
  | blob (bytes : List Nat)
  | timestamp (t : NaiveDateTime)
  deriving DecidableEq, Repr

/-- The column-type tag `SqlType`, as consumed by `column_default`: the
`match col.sqltype()?` there has arms `Bool`, `Int`, `BigInt`, `Real`,
`Text`, `Blob`, `Timestamp` and no wildcard. -/
inductive SqlType where
  | bool
  | int
  | bigInt
  | real
  | text
  | blob
  | timestamp
  deriving DecidableEq, Repr

/-- Modelled from the spec: the external crate function `hex::encode_upper`,
which `sql_literal_value` applies to blobs — each byte as two upper-case hex
digits, in order. -/
def hexDigitUpper (n : Nat) : Char :=
  if n < 10 then Char.ofNat (48 + n) else Char.ofNat (55 + n)

/-- `hex::encode_upper` on a byte sequence. -/
def hex_encode_upper (bytes : List Nat) : String :=
  String.mk (bytes.flatMap fun b => [hexDigitUpper (b / 16), hexDigitUpper (b % 16)])

/-- `sql_literal_value` from `helper.rs`: renders a value as an inline SQL
literal. `Bool`/`Int`/`Real` go through their Rust `Display` form, `Text`
is wrapped in single quotes with no escaping, `Blob` is `x'<upper hex>'`,
`Timestamp` is chrono `%+` formatting. -/
def sql_literal_value (val : SqlVal) : String :=
  match val with
  | .null => "NULL"
  | .bool val => if val then "true" else "false"
  | .int val => toString val
  | .real val => val.repr
  | .text val => squote ++ val ++ squote
  | .blob val => "x" ++ squote ++ hex_encode_upper val ++ squote
  | .timestamp ndt => ndt.format_plus

/-- Modelled from the spec: the `Display` impl of `SqlVal` (used as
`v.to_string()` by the `In` arm of `sql_for_expr`) is not under `src/`;
per the spec, In-list values "are rendered via the literal-value renderer",
so `to_string` is the literal renderer. -/
def SqlVal.to_string (v : SqlVal) : String := sql_literal_value v

/-- Rust's `[String]::join(sep)`: the pieces concatenated with `sep` between
consecutive pieces (`n - 1` separators for `n` pieces, none for one piece,
empty output for no pieces). -/
def joinSep (sep : String) : List String → String
  | [] => ""
  | [s] => s
  | s :: rest => s ++ sep ++ joinSep sep rest

/-- Modelled from the spec: `AColumn` (`migrations::adb`) is not under
`src/`; the spec gives its narrow interface — a nullability flag, an
optional declared default `SqlVal`, and a fallible accessor for the
declared `SqlType` (the error is kept opaque as a `String`). -/
structure AColumn where
  default : Option SqlVal
  nullable : Bool
  sqltype : Except String SqlType
  deriving Repr

/-- `column_default` from `helper.rs`: declared default first, else `Null`
for a nullable column, else the zero value of the resolved type (the `?` on
`col.sqltype()` propagating a type-resolution failure). -/
def column_default (col : AColumn) : Except String SqlVal :=
  match col.default with
  | some val => .ok val
  | none =>
    if col.nullable then .ok SqlVal.null
    else
      match col.sqltype with
      | .error e => .error e
      | .ok t =>
        .ok (match t with
          | SqlType.bool => SqlVal.bool false
          | SqlType.int => SqlVal.int 0
          | SqlType.bigInt => SqlVal.int 0
          | SqlType.real => SqlVal.real F64.zero
          | SqlType.text => SqlVal.text ""
          | SqlType.blob => SqlVal.blob []
          | SqlType.timestamp => SqlVal.timestamp (NaiveDateTime.from_timestamp 0 0))

/-- `query::Column`: an optionally table-qualified column reference. -/
structure Column where
  table : Option String
  name : String
  deriving DecidableEq, Repr

/-- `query::Join`: its single variant `Inner { join_table, col1, col2 }`. -/
inductive Join where
  | inner (join_table : String) (col1 : Column) (col2 : Column)
  deriving DecidableEq, Repr

mutual
/-- `query::Expr`: column reference, bound value, unbound placeholder, or a
wrapped boolean condition. -/
inductive Expr where
  | column (name : String)
  | val (v : SqlVal)
  | placeholder
  | condition (c : BoolExpr)
  deriving Repr

/-- `query::BoolExpr`, with the variants in source order. Comparison
left-hand sides are bare column-name strings, as in the source. -/
inductive BoolExpr where
  | true_
  | eq (col : String) (e : Expr)
  | ne (col : String) (e : Expr)
  | lt (col : String) (e : Expr)
  | gt (col : String) (e : Expr)
  | le (col : String) (e : Expr)
  | ge (col : String) (e : Expr)
  | like (col : String) (e : Expr)
  | allOf (conds : List BoolExpr)
  | and (a : BoolExpr) (b : BoolExpr)
  | or (a : BoolExpr) (b : BoolExpr)
  | not (a : BoolExpr)
  | subquery (col : String) (tbl2 : String) (tbl2_col : String) (e : BoolExpr)
  | subqueryJoin (col : String) (tbl2 : String) (col2 : Column) (joins : List Join)
      (e : BoolExpr)
  | in_ (col : String) (vals : List SqlVal)
  deriving Repr
end

/-- The guard of the first arm of the `Eq`/`Ne` matches in `sql_for_expr`:
is this expression exactly `Expr::Val(SqlVal::Null)`? -/
def isValNull : Expr → Bool
  | .val .null => true
  | _ => false

/-- `sql_column` from `helper.rs`, as the string it writes: the qualified
`table.name` when a table is present, the bare name otherwise. -/
def sql_column (col : Column) : String :=
  match col.table with
  | some table => table ++ "." ++ col.name
  | none => col.name

/-- `sql_joins` from `helper.rs`, as the string it writes: each join emits
`INNER JOIN <join_table> ON <col1> = <col2>`, successive joins concatenated
exactly as the source's loop writes them. -/
def sql_joins : List Join → String
  | [] => ""
  | .inner join_table col1 col2 :: rest =>
      "INNER JOIN " ++ join_table ++ " ON " ++ sql_column col1 ++ " = " ++ sql_column col2
        ++ sql_joins rest

mutual
/-- `sql_for_expr` from `helper.rs`: writes the SQL for `expr` onto the sink
`w`, pushing each bound value onto `values`; returns the final
(values, sink) pair. The Rust function's recursion callback `f` is tied to
the function itself, as the crate's callers do. Sequential mutation of the
two output parameters becomes state threading through the recursive calls
(`.1`/`.2` project the updated values list and sink). -/
def sql_for_expr : Expr → List SqlVal → String → List SqlVal × String
  | .column name, values, w => (values, w ++ name)
  | .val v, values, w => (values ++ [v], w ++ "?")
  | .placeholder, values, w => (values, w ++ "?")
  | .condition c, values, w => sql_for_cond c values w

/-- The `Condition(c) => match *c` arm of `sql_for_expr`, one case per
`BoolExpr` variant, in source order. -/
def sql_for_cond : BoolExpr → List SqlVal → String → List SqlVal × String
  | .true_, values, w => (values, w ++ "TRUE")
  | .eq col ex, values, w =>
      if isValNull ex then (values, w ++ col ++ " IS NULL")
      else sql_for_expr ex values (w ++ col ++ " = ")
  | .ne col ex, values, w =>
      if isValNull ex then (values, w ++ col ++ " IS NOT NULL")
      else sql_for_expr ex values (w ++ col ++ " <> ")
  | .lt col ex, values, w => sql_for_expr ex values (w ++ col ++ " < ")
  | .gt col ex, values, w => sql_for_expr ex values (w ++ col ++ " > ")
  | .le col ex, values, w => sql_for_expr ex values (w ++ col ++ " <= ")
  | .ge col ex, values, w => sql_for_expr ex values (w ++ col ++ " >= ")
  | .like col ex, values, w => sql_for_expr ex values (w ++ col ++ " like ")
  | .allOf conds, values, w => sql_allOf conds conds.length values w
  | .and a b, values, w =>
      sql_for_cond b (sql_for_cond a values w).1 ((sql_for_cond a values w).2 ++ " AND ")
  | .or a b, values, w =>
      sql_for_cond b (sql_for_cond a values w).1 ((sql_for_cond a values w).2 ++ " OR ")
  | .not a, values, w => sql_for_cond a values (w ++ "NOT ")
  | .subquery col tbl2 tbl2_col e, values, w =>
      ((sql_for_cond e values
          (w ++ col ++ " IN (SELECT " ++ tbl2_col ++ " FROM " ++ tbl2 ++ " WHERE ")).1,
       (sql_for_cond e values
          (w ++ col ++ " IN (SELECT " ++ tbl2_col ++ " FROM " ++ tbl2 ++ " WHERE ")).2 ++ ")")
  | .subqueryJoin col tbl2 col2 joins e, values, w =>
      ((sql_for_cond e values
          (w ++ col ++ " IN (SELECT " ++ sql_column col2 ++ " FROM " ++ tbl2 ++ " "
            ++ sql_joins joins ++ " WHERE ")).1,
       (sql_for_cond e values
          (w ++ col ++ " IN (SELECT " ++ sql_column col2 ++ " FROM " ++ tbl2 ++ " "
            ++ sql_joins joins ++ " WHERE ")).2 ++ ")")
  | .in_ col vals, values, w =>
      (values,
       w ++ col ++ " IN (" ++ joinSep ", " (vals.map SqlVal.to_string) ++ ")")

/-- The `AllOf(conds)` loop of `sql_for_expr`: compiles each condition in
order, writing `" AND "` after one whenever `remaining > 1` and then
decrementing `remaining`; entered with `remaining = conds.len()`. -/
def sql_allOf : List BoolExpr → Nat → List SqlVal → String → List SqlVal × String
  | [], _, values, w => (values, w)
  | cond :: rest, remaining, values, w =>
      if remaining > 1 then
        sql_allOf rest (remaining - 1) (sql_for_cond cond values w).1
          ((sql_for_cond cond values w).2 ++ " AND ")
      else
        sql_allOf rest remaining (sql_for_cond cond values w).1 (sql_for_cond cond values w).2
end

/-- The values appended by compiling `e` alone. -/
def sqlVals (e : Expr) : List SqlVal := (sql_for_expr e [] "").1

/-- The text emitted by compiling `e` alone. -/
def sqlText (e : Expr) : String := (sql_for_expr e [] "").2

/-- One piece of compiled output, for stating the placeholder/parameter
correspondence: either literal text, or the `?` marker written for a bound
value, carried together with that value. -/
inductive Chunk where
  | txt (s : String)
  | hole (v : SqlVal)
  deriving Repr

/-- The text of one chunk: a hole prints as the `?` marker. -/
def chunkText : Chunk → String
  | .txt s => s
  | .hole _ => "?"

/-- The text of a chunk sequence. -/
def chunksText : List Chunk → String
  | [] => ""
  | c :: rest => chunkText c ++ chunksText rest

/-- The bound values of a chunk sequence, in marker order. -/
def chunksVals : List Chunk → List SqlVal
  | [] => []
  | .hole v :: rest => v :: chunksVals rest
  | .txt _ :: rest => chunksVals rest

mutual
/-- `sql_for_expr`, instrumented: the same traversal, emitting its output as
a chunk sequence in which each bound value sits at the position of its `?`
marker. -/
def sql_chunks : Expr → List Chunk
  | .column name => [.txt name]
  | .val v => [.hole v]
  | .placeholder => [.txt "?"]
  | .condition c => cond_chunks c

/-- Chunk output of the `Condition` arm, one case per `BoolExpr` variant. -/
def cond_chunks : BoolExpr → List Chunk
  | .true_ => [.txt "TRUE"]
  | .eq col ex =>
      if isValNull ex then [.txt (col ++ " IS NULL")]
      else .txt (col ++ " = ") :: sql_chunks ex
  | .ne col ex =>
      if isValNull ex then [.txt (col ++ " IS NOT NULL")]
      else .txt (col ++ " <> ") :: sql_chunks ex
  | .lt col ex => .txt (col ++ " < ") :: sql_chunks ex
  | .gt col ex => .txt (col ++ " > ") :: sql_chunks ex
  | .le col ex => .txt (col ++ " <= ") :: sql_chunks ex
  | .ge col ex => .txt (col ++ " >= ") :: sql_chunks ex
  | .like col ex => .txt (col ++ " like ") :: sql_chunks ex
  | .allOf conds => allOf_chunks conds conds.length
  | .and a b => cond_chunks a ++ .txt " AND " :: cond_chunks b
  | .or a b => cond_chunks a ++ .txt " OR " :: cond_chunks b
  | .not a => .txt "NOT " :: cond_chunks a
  | .subquery col tbl2 tbl2_col e =>
      .txt (col ++ " IN (SELECT " ++ tbl2_col ++ " FROM " ++ tbl2 ++ " WHERE ")
        :: (cond_chunks e ++ [.txt ")"])
  | .subqueryJoin col tbl2 col2 joins e =>
      .txt (col ++ " IN (SELECT " ++ sql_column col2 ++ " FROM " ++ tbl2 ++ " "
          ++ sql_joins joins ++ " WHERE ")
        :: (cond_chunks e ++ [.txt ")"])
  | .in_ col vals =>
      [.txt (col ++ " IN (" ++ joinSep ", " (vals.map SqlVal.to_string) ++ ")")]

/-- Chunk output of the `AllOf` loop. -/
def allOf_chunks : List BoolExpr → Nat → List Chunk
  | [], _ => []
  | cond :: rest, remaining =>
      if remaining > 1 then cond_chunks cond ++ .txt " AND " :: allOf_chunks rest (remaining - 1)
      else cond_chunks cond ++ allOf_chunks rest remaining
end

theorem chunksText_append (a b : List Chunk) :
    chunksText (a ++ b) = chunksText a ++ chunksText b := by
  induction a with
  | nil => simp [chunksText]
  | cons c rest ih => simp [chunksText, ih, String.append_assoc]

theorem chunksVals_append (a b : List Chunk) :
    chunksVals (a ++ b) = chunksVals a ++ chunksVals b := by
  induction a with
  | nil => simp [chunksVals]
  | cons c rest ih => cases c <;> simp [chunksVals, ih]

/-- Master correspondence: `sql_for_expr` only appends to both output
parameters, and what it appends is exactly the flattening of the
instrumented chunk output. -/
theorem sql_for_expr_eq_chunks (e : Expr) (vs : List SqlVal) (w : String) :
    sql_for_expr e vs w = (vs ++ chunksVals (sql_chunks e), w ++ chunksText (sql_chunks e)) := by
  refine sql_for_expr.induct
    (fun e vs w => sql_for_expr e vs w =
      (vs ++ chunksVals (sql_chunks e), w ++ chunksText (sql_chunks e)))
    (fun c vs w => sql_for_cond c vs w =
      (vs ++ chunksVals (cond_chunks c), w ++ chunksText (cond_chunks c)))
    (fun conds rem vs w => sql_allOf conds rem vs w =
      (vs ++ chunksVals (allOf_chunks conds rem), w ++ chunksText (allOf_chunks conds rem)))
    ?_ ?_ ?_ ?_ ?_ ?_ ?_ ?_ ?_ ?_ ?_ ?_ ?_ ?_ ?_ ?_ ?_ ?_ ?_ ?_ ?_ ?_ ?_ ?_ e vs w
  · intro name vs w
    simp [sql_for_expr, sql_chunks, chunksVals, chunksText, chunkText]
  · intro v vs w
    simp [sql_for_expr, sql_chunks, chunksVals, chunksText, chunkText]
  · intro vs w
    simp [sql_for_expr, sql_chunks, chunksVals, chunksText, chunkText]
  · intro c vs w ih
    simpa [sql_for_expr, sql_chunks] using ih
  · intro vs w
    simp [sql_for_cond, cond_chunks, chunksVals, chunksText, chunkText]
  · intro col ex vs w h
    simp [sql_for_cond, cond_chunks, h, chunksVals, chunksText, chunkText, String.append_assoc]
  · intro col ex vs w h ih
    simp only [sql_for_cond, cond_chunks, h, if_neg, Bool.false_eq_true, not_false_eq_true]
    rw [ih]
    simp [chunksVals, chunksText, chunkText, String.append_assoc]
  · intro col ex vs w h
    simp [sql_for_cond, cond_chunks, h, chunksVals, chunksText, chunkText, String.append_assoc]
  · intro col ex vs w h ih
    simp only [sql_for_cond, cond_chunks, h, if_neg, Bool.false_eq_true, not_false_eq_true]
    rw [ih]
    simp [chunksVals, chunksText, chunkText, String.append_assoc]
  · intro col ex vs w ih
    simp only [sql_for_cond, cond_chunks]
    rw [ih]
    simp [chunksVals, chunksText, chunkText, String.append_assoc]
  · intro col ex vs w ih
    simp only [sql_for_cond, cond_chunks]
    rw [ih]
    simp [chunksVals, chunksText, chunkText, String.append_assoc]
  · intro col ex vs w ih
    simp only [sql_for_cond, cond_chunks]
    rw [ih]
    simp [chunksVals, chunksText, chunkText, String.append_assoc]
  · intro col ex vs w ih
    simp only [sql_for_cond, cond_chunks]
    rw [ih]
    simp [chunksVals, chunksText, chunkText, String.append_assoc]
  · intro col ex vs w ih
    simp only [sql_for_cond, cond_chunks]
    rw [ih]
    simp [chunksVals, chunksText, chunkText, String.append_assoc]
  · intro conds vs w ih
    simp only [sql_for_cond, cond_chunks]
    exact ih
  · intro a b vs w iha ihb
    simp only [sql_for_cond, cond_chunks]
    rw [ihb, iha]
    simp [chunksVals_append, chunksText_append, chunksVals, chunksText, chunkText,
      String.append_assoc]
  · intro a b vs w iha ihb
    simp only [sql_for_cond, cond_chunks]
    rw [ihb, iha]
    simp [chunksVals_append, chunksText_append, chunksVals, chunksText, chunkText,
      String.append_assoc]
  · intro a vs w ih
    simp only [sql_for_cond, cond_chunks]
    rw [ih]
    simp [chunksVals, chunksText, chunkText, String.append_assoc]
  · intro col tbl2 tbl2_col e vs w ih
    simp only [sql_for_cond, cond_chunks]
    rw [ih]
    simp [chunksVals_append, chunksText_append, chunksVals, chunksText, chunkText,
      String.append_assoc]
  · intro col tbl2 col2 joins e vs w ih
    simp only [sql_for_cond, cond_chunks]
    rw [ih]
    simp [chunksVals_append, chunksText_append, chunksVals, chunksText, chunkText,
      String.append_assoc]
  · intro col vals vs w
    simp [sql_for_cond, cond_chunks, chunksVals, chunksText, chunkText, String.append_assoc]
  · intro x vs w
    simp [sql_allOf, allOf_chunks, chunksVals, chunksText]
  · intro cond rest remaining vs w h ihc ihrest
    simp only [sql_allOf, allOf_chunks, h, if_pos]
    rw [ihrest, ihc]
    simp [chunksVals_append, chunksText_append, chunksVals, chunksText, chunkText,
      String.append_assoc]
  · intro cond rest remaining vs w h ihc ihrest
    simp only [sql_allOf, allOf_chunks, h, if_neg, Bool.false_eq_true, not_false_eq_true]
    rw [ihrest, ihc]
    simp [chunksVals_append, chunksText_append, String.append_assoc]

/-- Number of `?` characters in a string: the formal reading of the spec's
"placeholder markers" in the emitted SQL text. -/
def countQ (s : String) : Nat := s.data.count '?'

/-- A string free of the `?` character, so that it contributes no spurious
placeholder markers to the emitted text. -/
def qfreeStr (s : String) : Bool := countQ s == 0

/-- A chunk is clean when its text part contains no `?` character; a hole is
always clean (it is the marker itself). -/
def chunkClean : Chunk → Bool
  | .txt s => qfreeStr s
  | .hole _ => true

/-- A chunk sequence all of whose text parts are `?`-free: in its flattened
text, the i-th `?` character (left to right) is exactly the i-th hole's
marker, so the i-th bound value. -/
def chunksClean : List Chunk → Bool
  | [] => true
  | c :: rest => chunkClean c && chunksClean rest

theorem countQ_append (s t : String) : countQ (s ++ t) = countQ s + countQ t := by
  simp [countQ, String.data_append, List.count_append]

theorem chunksClean_append (a b : List Chunk) :
    chunksClean (a ++ b) = (chunksClean a && chunksClean b) := by
  induction a with
  | nil => simp [chunksClean]
  | cons c rest ih => simp [chunksClean, ih, Bool.and_assoc]

/-- In a clean chunk sequence the number of `?` characters of the flattened
text equals the number of bound values. -/
theorem countQ_chunksText_of_clean (l : List Chunk) (h : chunksClean l = true) :
    countQ (chunksText l) = (chunksVals l).length := by
  induction l with
  | nil => simp [chunksText, chunksVals, countQ]
  | cons c rest ih =>
    simp only [chunksClean, Bool.and_eq_true] at h
    cases c with
    | txt s =>
      have hs : countQ s = 0 := by
        have := h.1
        simpa [chunkClean, qfreeStr] using this
      simp [chunksText, chunksVals, chunkText, countQ_append, hs, ih h.2]
    | hole v =>
      have hq : countQ "?" = 1 := by decide
      simp [chunksText, chunksVals, chunkText, countQ_append, hq, ih h.2]
      omega

mutual
/-- Does the expression tree contain an `In` variant anywhere? -/
def exprHasIn : Expr → Bool
  | .column _ => false
  | .val _ => false
  | .placeholder => false
  | .condition c => condHasIn c

/-- `exprHasIn` on a boolean sub-tree. -/
def condHasIn : BoolExpr → Bool
  | .true_ => false
  | .eq _ ex => exprHasIn ex
  | .ne _ ex => exprHasIn ex
  | .lt _ ex => exprHasIn ex
  | .gt _ ex => exprHasIn ex
  | .le _ ex => exprHasIn ex
  | .ge _ ex => exprHasIn ex
  | .like _ ex => exprHasIn ex
  | .allOf conds => condsHaveIn conds
  | .and a b => condHasIn a || condHasIn b
  | .or a b => condHasIn a || condHasIn b
  | .not a => condHasIn a
  | .subquery _ _ _ e => condHasIn e
  | .subqueryJoin _ _ _ _ e => condHasIn e
  | .in_ _ _ => true

/-- `condHasIn` over a condition list. -/
def condsHaveIn : List BoolExpr → Bool
  | [] => false
  | c :: rest => condHasIn c || condsHaveIn rest

end

/-- `?`-freedom of a qualified column reference, as rendered by `sql_column`. -/
def colQfree (c : Column) : Bool :=
  qfreeStr c.name && (match c.table with | some t => qfreeStr t | none => true)

/-- `?`-freedom of a join list, as rendered by `sql_joins`. -/
def joinsQfree : List Join → Bool
  | [] => true
  | .inner join_table col1 col2 :: rest =>
      qfreeStr join_table && colQfree col1 && colQfree col2 && joinsQfree rest

mutual
/-- The hypotheses of the amended claim C1: the tree contains no `In`
variant and no `Placeholder`, and no embedded column/table name contains
the `?` character. -/
def exprOk : Expr → Bool
  | .column name => qfreeStr name
  | .val _ => true
  | .placeholder => false
  | .condition c => condOk c

/-- `exprOk` on a boolean sub-tree. -/
def condOk : BoolExpr → Bool
  | .true_ => true
  | .eq col ex => qfreeStr col && exprOk ex
  | .ne col ex => qfreeStr col && exprOk ex
  | .lt col ex => qfreeStr col && exprOk ex
  | .gt col ex => qfreeStr col && exprOk ex
  | .le col ex => qfreeStr col && exprOk ex
  | .ge col ex => qfreeStr col && exprOk ex
  | .like col ex => qfreeStr col && exprOk ex
  | .allOf conds => condsOk conds
  | .and a b => condOk a && condOk b
  | .or a b => condOk a && condOk b
  | .not a => condOk a
  | .subquery col tbl2 tbl2_col e => qfreeStr col && qfreeStr tbl2 && qfreeStr tbl2_col && condOk e
  | .subqueryJoin col tbl2 col2 joins e =>
      qfreeStr col && qfreeStr tbl2 && colQfree col2 && joinsQfree joins && condOk e
  | .in_ _ _ => false

/-- `condOk` over a condition list. -/
def condsOk : List BoolExpr → Bool
  | [] => true
  | c :: rest => condOk c && condsOk rest

end

theorem qfreeStr_append (s t : String) : qfreeStr (s ++ t) = (qfreeStr s && qfreeStr t) := by
  cases hcs : countQ s <;> cases hct : countQ t <;> simp [qfreeStr, countQ_append, hcs, hct]

theorem sql_column_qfree (c : Column) (h : colQfree c = true) :
    qfreeStr (sql_column c) = true := by
  obtain ⟨tab, name⟩ := c
  simp only [colQfree, Bool.and_eq_true] at h
  cases tab with
  | none => simpa [sql_column] using h.1
  | some t =>
    simp only at h
    simp [sql_column, qfreeStr_append, h.1, h.2, (by decide : qfreeStr "." = true)]

theorem sql_joins_qfree (js : List Join) (h : joinsQfree js = true) :
    qfreeStr (sql_joins js) = true := by
  induction js with
  | nil => decide
  | cons j rest ih =>
    cases j with
    | inner join_table col1 col2 =>
      simp only [joinsQfree, Bool.and_eq_true] at h
      simp [sql_joins, qfreeStr_append, h.1.1.1, ih h.2,
        sql_column_qfree col1 h.1.1.2, sql_column_qfree col2 h.1.2,
        (by decide : qfreeStr "INNER JOIN " = true), (by decide : qfreeStr " ON " = true),
        (by decide : qfreeStr " = " = true)]

/-- Under the `exprOk` hypotheses, every text chunk the compiler emits is
`?`-free: every `?` character of the output is a bound-value marker. -/
theorem chunks_clean_of_ok (e : Expr) (h : exprOk e = true) :
    chunksClean (sql_chunks e) = true := by
  refine sql_chunks.induct
    (fun e => exprOk e = true → chunksClean (sql_chunks e) = true)
    (fun c => condOk c = true → chunksClean (cond_chunks c) = true)
    (fun conds rem => condsOk conds = true → chunksClean (allOf_chunks conds rem) = true)
    ?_ ?_ ?_ ?_ ?_ ?_ ?_ ?_ ?_ ?_ ?_ ?_ ?_ ?_ ?_ ?_ ?_ ?_ ?_ ?_ ?_ ?_ ?_ ?_ e h
  · intro name h
    simp only [exprOk] at h
    simp [sql_chunks, chunksClean, chunkClean, h]
  · intro v _
    simp [sql_chunks, chunksClean, chunkClean]
  · intro h
    simp [exprOk] at h
  · intro c ih h
    simp only [exprOk] at h
    simpa [sql_chunks] using ih h
  · intro _
    simp [cond_chunks, chunksClean, chunkClean]
    decide
  · intro col ex hnull h
    simp only [condOk, Bool.and_eq_true] at h
    simp [cond_chunks, hnull, chunksClean, chunkClean, qfreeStr_append, h.1,
      (by decide : qfreeStr " IS NULL" = true)]
  · intro col ex hnull ih h
    simp only [condOk, Bool.and_eq_true] at h
    simp [cond_chunks, hnull, chunksClean, chunkClean, qfreeStr_append, h.1, ih h.2,
      (by decide : qfreeStr " = " = true)]
  · intro col ex hnull h
    simp only [condOk, Bool.and_eq_true] at h
    simp [cond_chunks, hnull, chunksClean, chunkClean, qfreeStr_append, h.1,
      (by decide : qfreeStr " IS NOT NULL" = true)]
  · intro col ex hnull ih h
    simp only [condOk, Bool.and_eq_true] at h
    simp [cond_chunks, hnull, chunksClean, chunkClean, qfreeStr_append, h.1, ih h.2,
      (by decide : qfreeStr " <> " = true)]
  · intro col ex ih h
    simp only [condOk, Bool.and_eq_true] at h
    simp [cond_chunks, chunksClean, chunkClean, qfreeStr_append, h.1, ih h.2,
      (by decide : qfreeStr " < " = true)]
  · intro col ex ih h
    simp only [condOk, Bool.and_eq_true] at h
    simp [cond_chunks, chunksClean, chunkClean, qfreeStr_append, h.1, ih h.2,
      (by decide : qfreeStr " > " = true)]
  · intro col ex ih h
    simp only [condOk, Bool.and_eq_true] at h
    simp [cond_chunks, chunksClean, chunkClean, qfreeStr_append, h.1, ih h.2,
      (by decide : qfreeStr " <= " = true)]
  · intro col ex ih h
    simp only [condOk, Bool.and_eq_true] at h
    simp [cond_chunks, chunksClean, chunkClean, qfreeStr_append, h.1, ih h.2,
      (by decide : qfreeStr " >= " = true)]
  · intro col ex ih h
    simp only [condOk, Bool.and_eq_true] at h
    simp [cond_chunks, chunksClean, chunkClean, qfreeStr_append, h.1, ih h.2,
      (by decide : qfreeStr " like " = true)]
  · intro conds ih h
    simp only [condOk] at h
    simpa [cond_chunks] using ih h
  · intro a b iha ihb h
    simp only [condOk, Bool.and_eq_true] at h
    simp [cond_chunks, chunksClean_append, chunksClean, chunkClean, iha h.1, ihb h.2,
      (by decide : qfreeStr " AND " = true)]
  · intro a b iha ihb h
    simp only [condOk, Bool.and_eq_true] at h
    simp [cond_chunks, chunksClean_append, chunksClean, chunkClean, iha h.1, ihb h.2,
      (by decide : qfreeStr " OR " = true)]
  · intro a ih h
    simp only [condOk] at h
    simp [cond_chunks, chunksClean, chunkClean, ih h, (by decide : qfreeStr "NOT " = true)]
  · intro col tbl2 tbl2_col e2 ih h
    simp only [condOk, Bool.and_eq_true] at h
    simp [cond_chunks, chunksClean_append, chunksClean, chunkClean, qfreeStr_append,
      h.1.1.1, h.1.1.2, h.1.2, ih h.2,
      (by decide : qfreeStr " IN (SELECT " = true), (by decide : qfreeStr " FROM " = true),
      (by decide : qfreeStr " WHERE " = true), (by decide : qfreeStr ")" = true)]
  · intro col tbl2 col2 joins e2 ih h
    simp only [condOk, Bool.and_eq_true] at h
    simp [cond_chunks, chunksClean_append, chunksClean, chunkClean, qfreeStr_append,
      h.1.1.1.1, h.1.1.1.2, ih h.2,
      sql_column_qfree col2 h.1.1.2, sql_joins_qfree joins h.1.2,
      (by decide : qfreeStr " IN (SELECT " = true), (by decide : qfreeStr " FROM " = true),
      (by decide : qfreeStr " WHERE " = true), (by decide : qfreeStr ")" = true),
      (by decide : qfreeStr " " = true)]
  · intro col vals h
    simp [condOk] at h
  · intro _ _
    simp [allOf_chunks, chunksClean]
  · intro cond rest remaining hrem ihc ihrest h
    simp only [condsOk, Bool.and_eq_true] at h
    simp [allOf_chunks, hrem, chunksClean_append, chunksClean, chunkClean,
      ihc h.1, ihrest h.2, (by decide : qfreeStr " AND " = true)]
  · intro cond rest remaining hrem ihc ihrest h
    simp only [condsOk, Bool.and_eq_true] at h
    simp [allOf_chunks, hrem, chunksClean_append, ihc h.1, ihrest h.2]

theorem sqlVals_eq_chunks (e : Expr) : sqlVals e = chunksVals (sql_chunks e) := by
  simp [sqlVals, sql_for_expr_eq_chunks]

theorem sqlText_eq_chunks (e : Expr) : sqlText e = chunksText (sql_chunks e) := by
  simp [sqlText, sql_for_expr_eq_chunks]

/-- The `AllOf` loop, entered with `remaining = conds.len()` as
`sql_for_expr` does, produces exactly the conditions' outputs joined by
`" AND "` — `n - 1` separators for `n` conditions — and their values
concatenated in order. -/
theorem allOf_chunks_spec (conds : List BoolExpr) :
    chunksText (allOf_chunks conds conds.length)
        = joinSep " AND " (conds.map fun c => chunksText (cond_chunks c))
      ∧ chunksVals (allOf_chunks conds conds.length)
        = (conds.map fun c => chunksVals (cond_chunks c)).flatten := by
  induction conds with
  | nil => simp [allOf_chunks, joinSep, chunksText, chunksVals]
  | cons c rest ih =>
    cases rest with
    | nil =>
      simp [allOf_chunks, joinSep, chunksText_append, chunksVals_append, chunksText, chunksVals]
    | cons d rest2 =>
      have hlen : (c :: d :: rest2).length > 1 := by simp
      constructor
      · calc chunksText (allOf_chunks (c :: d :: rest2) (c :: d :: rest2).length)
            = chunksText (cond_chunks c) ++ " AND "
                ++ chunksText (allOf_chunks (d :: rest2) (d :: rest2).length) := by
              simp [allOf_chunks, hlen, chunksText_append, chunksText, chunkText,
                String.append_assoc]
          _ = joinSep " AND " ((c :: d :: rest2).map fun c => chunksText (cond_chunks c)) := by
              rw [ih.1]
              simp [joinSep, String.append_assoc]
      · calc chunksVals (allOf_chunks (c :: d :: rest2) (c :: d :: rest2).length)
            = chunksVals (cond_chunks c)
                ++ chunksVals (allOf_chunks (d :: rest2) (d :: rest2).length) := by
              simp [allOf_chunks, hlen, chunksVals_append, chunksVals]
          _ = ((c :: d :: rest2).map fun c => chunksVals (cond_chunks c)).flatten := by
              rw [ih.2]
              simp

theorem isValNull_eq_false (ex : Expr) (h : ex ≠ Expr.val SqlVal.null) :
    isValNull ex = false := by
  cases ex with
  | column name => simp [isValNull]
  | placeholder => simp [isValNull]
  | condition c => simp [isValNull]
  | val v =>
    cases v with
    | null => exact absurd rfl h
    | bool b => simp [isValNull]
    | int i => simp [isValNull]
    | real r => simp [isValNull]
    | text s => simp [isValNull]
    | blob bytes => simp [isValNull]
    | timestamp t => simp [isValNull]

/-- C2: for every column name, `Eq(col, Val(Null))` compiles to exactly
`<col> IS NULL` and `Ne(col, Val(Null))` to `<col> IS NOT NULL`, appending
nothing to the parameter vector; for every other right-hand expression,
`Eq` emits `<col> = ` and `Ne` emits `<col> <> ` followed by the compiled
right side. -/
theorem c2_null_rewrite (col : String) (ex : Expr) (vs : List SqlVal) (w : String)
    (hne : ex ≠ Expr.val SqlVal.null) :
    sql_for_expr (.condition (.eq col (.val .null))) vs w = (vs, w ++ col ++ " IS NULL")
    ∧ sql_for_expr (.condition (.ne col (.val .null))) vs w = (vs, w ++ col ++ " IS NOT NULL")
    ∧ sql_for_expr (.condition (.eq col ex)) vs w
        = (vs ++ sqlVals ex, w ++ col ++ " = " ++ sqlText ex)
    ∧ sql_for_expr (.condition (.ne col ex)) vs w
        = (vs ++ sqlVals ex, w ++ col ++ " <> " ++ sqlText ex) := by
  have hnull := isValNull_eq_false ex hne
  refine ⟨?_, ?_, ?_, ?_⟩
  · simp [sql_for_expr, sql_for_cond, isValNull]
  · simp [sql_for_expr, sql_for_cond, isValNull]
  · simp only [sql_for_expr, sql_for_cond, hnull, Bool.false_eq_true, not_false_eq_true,
      if_neg, if_false]
    rw [sql_for_expr_eq_chunks]
    simp [sqlVals_eq_chunks, sqlText_eq_chunks, String.append_assoc]
  · simp only [sql_for_expr, sql_for_cond, hnull, Bool.false_eq_true, not_false_eq_true,
      if_neg, if_false]
    rw [sql_for_expr_eq_chunks]
    simp [sqlVals_eq_chunks, sqlText_eq_chunks, String.append_assoc]

/-- Witness for C2 at concrete inputs: a null and a non-null right side. -/
theorem c2_null_rewrite_witness :
    sql_for_expr (.condition (.eq "a" (.val .null))) [] "" = ([], "a IS NULL")
    ∧ sql_for_expr (.condition (.eq "a" (.column "b"))) [] "" = ([], "a = b") := by
  have h := c2_null_rewrite "a" (Expr.column "b") [] "" (by simp)
  refine ⟨?_, ?_⟩
  · have h1 := h.1
    rw [h1]
    constructor
  · have h3 := h.2.2.1
    rw [h3]
    refine Prod.ext ?_ ?_ <;> simp [sqlVals, sqlText, sql_for_expr]

/-- C4: `In(col, vals)` emits `<col> IN (v1, v2, …)` with the values
inlined via the literal-value renderer `sql_literal_value`, separated by
`", "`, appending nothing to the parameter vector; in particular
`In("col", [Int(1), Int(2)])` compiles to `"col IN (1, 2)"` with an empty
appended-value list. -/
theorem c4_in_list_inlining (col : String) (vals : List SqlVal)
    (vs : List SqlVal) (w : String) :
    sql_for_expr (.condition (.in_ col vals)) vs w
      = (vs, w ++ col ++ " IN (" ++ joinSep ", " (vals.map sql_literal_value) ++ ")")
    ∧ SqlVal.to_string = sql_literal_value
    ∧ sqlText (.condition (.in_ "col" [.int 1, .int 2])) = "col IN (1, 2)"
    ∧ sqlVals (.condition (.in_ "col" [.int 1, .int 2])) = [] := by
  refine ⟨?_, rfl, ?_, ?_⟩
  · simp [sql_for_expr, sql_for_cond, show SqlVal.to_string = sql_literal_value from rfl,
      String.append_assoc]
  · simp only [sqlText, sql_for_expr, sql_for_cond]
    decide
  · simp [sqlVals, sql_for_expr, sql_for_cond]

/-- C5: `AllOf(conds)` emits the compiled conditions joined by `" AND "`
(the `joinSep` interleaving: `len(conds) - 1` separators, zero for a single
condition) with their values appended in order, and `AllOf([])` emits
nothing and appends nothing. -/
theorem c5_allOf_joining (conds : List BoolExpr) (vs : List SqlVal) (w : String) :
    sql_for_expr (.condition (.allOf conds)) vs w
      = (vs ++ (conds.map fun c => sqlVals (.condition c)).flatten,
         w ++ joinSep " AND " (conds.map fun c => sqlText (.condition c)))
    ∧ sql_for_expr (.condition (.allOf [])) vs w = (vs, w) := by
  constructor
  · rw [sql_for_expr_eq_chunks]
    have h := allOf_chunks_spec conds
    simp [sql_chunks, cond_chunks, h.1, h.2, sqlVals_eq_chunks, sqlText_eq_chunks]
  · simp [sql_for_expr, sql_for_cond, sql_allOf]

/-- C6: `And(a, b)` emits exactly `<a> AND <b>`, `Or(a, b)` exactly
`<a> OR <b>`, `Not(a)` exactly `NOT <a>`, the operands being the
recursively compiled sub-trees, with no parentheses inserted. -/
theorem c6_connectives_no_parens (a b : BoolExpr) (vs : List SqlVal) (w : String) :
    sql_for_expr (.condition (.and a b)) vs w
      = (vs ++ sqlVals (.condition a) ++ sqlVals (.condition b),
         w ++ sqlText (.condition a) ++ " AND " ++ sqlText (.condition b))
    ∧ sql_for_expr (.condition (.or a b)) vs w
      = (vs ++ sqlVals (.condition a) ++ sqlVals (.condition b),
         w ++ sqlText (.condition a) ++ " OR " ++ sqlText (.condition b))
    ∧ sql_for_expr (.condition (.not a)) vs w
      = (vs ++ sqlVals (.condition a), w ++ "NOT " ++ sqlText (.condition a)) := by
  refine ⟨?_, ?_, ?_⟩ <;>
  · rw [sql_for_expr_eq_chunks]
    simp [sql_chunks, cond_chunks, chunksVals_append, chunksText_append, chunksVals,
      chunksText, chunkText, sqlVals_eq_chunks, sqlText_eq_chunks, String.append_assoc]

/-- C9: `sql_for_expr` only ever appends — for every expression tree and
every initial contents of the parameter vector and the text sink, the final
contents extend the initial contents on the right. -/
theorem c9_append_only (e : Expr) (vs : List SqlVal) (w : String) :
    ∃ dvals dtext, sql_for_expr e vs w = (vs ++ dvals, w ++ dtext) :=
  ⟨chunksVals (sql_chunks e), chunksText (sql_chunks e), sql_for_expr_eq_chunks e vs w⟩

/-- C1 counterexample: the tree consisting of the bare `Placeholder` node
contains no `In` variant, yet compiling it emits one `?` marker while
appending zero values to the parameter vector — so the claim as stated
fails. -/
theorem c1_counterexample :
    exprHasIn Expr.placeholder = false
    ∧ sql_for_expr Expr.placeholder [] "" = ([], "?")
    ∧ ¬(countQ (sql_for_expr Expr.placeholder [] "").2
        = (sql_for_expr Expr.placeholder [] "").1.length) := by
  have hph : sql_for_expr Expr.placeholder [] "" = ([], "?") := by
    simp [sql_for_expr]
  refine ⟨by simp [exprHasIn], hph, ?_⟩
  rw [hph]
  decide

/-- C1 (amended): for every expression tree containing neither an `In`
variant nor a `Placeholder`, and whose embedded column/table names are free
of the `?` character (`exprOk`), the compiled output factors through the
instrumented chunk sequence — the values and text appended by
`sql_for_expr` are exactly its flattenings — every text chunk is `?`-free,
and the number of `?` markers in the emitted text equals the number of
appended values; hence the i-th `?` marker (left to right) is the marker
of the i-th appended value. -/
theorem c1_marker_value_alignment (e : Expr) (vs : List SqlVal) (w : String)
    (h : exprOk e = true) :
    (sql_for_expr e vs w).1 = vs ++ chunksVals (sql_chunks e)
    ∧ (sql_for_expr e vs w).2 = w ++ chunksText (sql_chunks e)
    ∧ countQ (chunksText (sql_chunks e)) = (chunksVals (sql_chunks e)).length
    ∧ chunksClean (sql_chunks e) = true := by
  have hm := sql_for_expr_eq_chunks e vs w
  have hc := chunks_clean_of_ok e h
  exact ⟨by rw [hm], by rw [hm], countQ_chunksText_of_clean _ hc, hc⟩

/-- Witness for C1 (amended) at the spec's end-to-end example predicate. -/
theorem c1_marker_value_alignment_witness :
    exprOk (.condition (.and (.eq "published" (.val (.bool true)))
        (.lt "likes" (.val (.int 5))))) = true
    ∧ countQ (chunksText (sql_chunks (.condition (.and (.eq "published" (.val (.bool true)))
        (.lt "likes" (.val (.int 5)))))))
      = (chunksVals (sql_chunks (.condition (.and (.eq "published" (.val (.bool true)))
        (.lt "likes" (.val (.int 5))))))).length := by
  have h : exprOk (.condition (.and (.eq "published" (.val (.bool true)))
      (.lt "likes" (.val (.int 5))))) = true := by
    simp [exprOk, condOk]
    decide
  exact ⟨h, (c1_marker_value_alignment _ [] "" h).2.2.1⟩

/-- C3: `column_default` resolves in precedence order — a declared default
is returned unconditionally (nullability and type unexamined), else `Null`
for a nullable column, else the declared type's zero value: `false` for
Bool, `0` for Int and BigInt, `0.0` for Real, the empty string for Text,
the empty byte sequence for Blob, the epoch for Timestamp. -/
theorem c3_default_precedence (col : AColumn) :
    (∀ v, col.default = some v → column_default col = .ok v)
    ∧ (col.default = none → col.nullable = true → column_default col = .ok .null)
    ∧ (col.default = none → col.nullable = false →
        (col.sqltype = .ok .bool → column_default col = .ok (.bool false))
        ∧ (col.sqltype = .ok .int → column_default col = .ok (.int 0))
        ∧ (col.sqltype = .ok .bigInt → column_default col = .ok (.int 0))
        ∧ (col.sqltype = .ok .real → column_default col = .ok (.real F64.zero))
        ∧ (col.sqltype = .ok .text → column_default col = .ok (.text ""))
        ∧ (col.sqltype = .ok .blob → column_default col = .ok (.blob []))
        ∧ (col.sqltype = .ok .timestamp →
            column_default col = .ok (.timestamp NaiveDateTime.epoch))) := by
  obtain ⟨d, n, t⟩ := col
  refine ⟨?_, ?_, ?_⟩
  · intro v hv
    simp only at hv
    subst hv
    simp [column_default]
  · intro hd hn
    simp only at hd hn
    subst hd; subst hn
    simp [column_default]
  · intro hd hn
    simp only at hd hn
    subst hd; subst hn
    refine ⟨?_, ?_, ?_, ?_, ?_, ?_, ?_⟩ <;>
    · intro ht
      simp only at ht
      subst ht
      simp [column_default, NaiveDateTime.epoch]

/-- Witness for C3: a non-nullable column with declared default `Int(5)`
resolves to `Int(5)` even with a broken type accessor; a nullable,
default-less column resolves to `Null`; a non-nullable, default-less Bool
column resolves to `Bool(false)`. -/
theorem c3_default_precedence_witness :
    column_default ⟨some (.int 5), false, .error "boom"⟩ = .ok (.int 5)
    ∧ column_default ⟨none, true, .error "boom"⟩ = .ok .null
    ∧ column_default ⟨none, false, .ok .bool⟩ = .ok (.bool false) :=
  ⟨(c3_default_precedence _).1 _ rfl,
   (c3_default_precedence _).2.1 rfl rfl,
   ((c3_default_precedence _).2.2 rfl rfl).1 rfl⟩

/-- C8: `column_default` returns an error exactly when the column has no
declared default, is not nullable, and its type resolution fails; any
column with a declared default or with nullability set resolves to `Ok`
without consulting the type — even when the type accessor fails. -/
theorem c8_error_exactly_on_type_failure (col : AColumn) :
    (∀ e, column_default col = .error e
        ↔ (col.default = none ∧ col.nullable = false ∧ col.sqltype = .error e))
    ∧ ((col.default.isSome = true ∨ col.nullable = true) →
        ∃ v, column_default col = .ok v) := by
  obtain ⟨d, n, t⟩ := col
  constructor
  · intro e
    cases d <;> cases n <;> cases t <;> simp [column_default]
  · intro h
    cases d with
    | some v => exact ⟨v, by simp [column_default]⟩
    | none =>
      cases n with
      | true => exact ⟨.null, by simp [column_default]⟩
      | false => simp at h

/-- Witness for C8: a column whose type accessor fails still resolves `Ok`
when it has a declared default. -/
theorem c8_error_exactly_on_type_failure_witness :
    ∃ v, column_default ⟨some (.int 1), false, .error "boom"⟩ = .ok v :=
  (c8_error_exactly_on_type_failure _).2 (Or.inl rfl)

/-- C10: a non-nullable column with no declared default whose resolved type
is `BigInt` resolves to the `Int`-tagged `Int(0)` — the very same result as
an `Int`-typed column. (`SqlVal` itself has no BigInt variant: the
exhaustive matches over it in `helper.rs` lack a BigInt arm, so no
BigInt-tagged value exists for resolution to produce.) -/
theorem c10_bigint_resolves_to_int (col : AColumn) (h1 : col.default = none)
    (h2 : col.nullable = false) (h3 : col.sqltype = .ok .bigInt) :
    column_default col = .ok (.int 0)
    ∧ column_default col = column_default ⟨none, false, .ok .int⟩ := by
  obtain ⟨d, n, t⟩ := col
  simp only at h1 h2 h3
  subst h1; subst h2; subst h3
  exact ⟨by simp [column_default], by simp [column_default]⟩

/-- Witness for C10 at the concrete BigInt column. -/
theorem c10_bigint_resolves_to_int_witness :
    column_default ⟨none, false, .ok .bigInt⟩ = .ok (.int 0) :=
  (c10_bigint_resolves_to_int ⟨none, false, .ok .bigInt⟩ rfl rfl rfl).1

/-- C7: `sql_literal_value` renders `Null` as `NULL`, booleans and numbers
in their natural textual form, `Text(s)` as `s` wrapped in single quotes
with no escaping of embedded quote characters, and `Blob` as upper-case hex
wrapped as `x'…'`; concretely `Text("abc")` renders as `'abc'` and
`Blob([0xAB, 0x01])` as `x'AB01'`. -/
theorem c7_literal_rendering :
    sql_literal_value .null = "NULL"
    ∧ (∀ b, sql_literal_value (.bool b) = if b then "true" else "false")
    ∧ (∀ i, sql_literal_value (.int i) = toString i)
    ∧ (∀ r, sql_literal_value (.real r) = r.repr)
    ∧ (∀ s, sql_literal_value (.text s) = squote ++ s ++ squote)
    ∧ (∀ bytes, sql_literal_value (.blob bytes)
        = "x" ++ squote ++ hex_encode_upper bytes ++ squote)
    ∧ sql_literal_value (.text "abc") = squote ++ "abc" ++ squote
    ∧ sql_literal_value (.blob [171, 1]) = "x" ++ squote ++ "AB01" ++ squote
    ∧ sql_literal_value (.text (squote ++ "abc")) = squote ++ squote ++ "abc" ++ squote := by
  refine ⟨rfl, fun b => rfl, fun i => rfl, fun r => rfl, fun s => rfl, fun bytes => rfl,
    rfl, ?_, ?_⟩
  · decide
  · decide
